import Mathlib

/-!
Shallow embedding of `src/bit-systems/carry-system.ts` (hubs_client).

Conventions of the embedding:
* JavaScript numbers are idealised as exact rationals (`ℚ`); none of the
  verified claims hinges on floating-point rounding.
* Angles are represented in units of π radians: a stored value `q : ℚ`
  denotes the angle `q * π`.  Under this convention the source constant
  `ROTATION_SPEED = (Math.PI * 2) / ROTATIONS_PER_SECOND / 1000` becomes
  the rational `2 / ROTATIONS_PER_SECOND / 1000`.  Bridge lemmas relate
  the rational representatives back to real radians.
* External collaborators (ECS store, physics engine, input system,
  raycaster, pointer lock, UI event bus) are modelled as inputs (`World`,
  `TickInput`) and as an emitted effect list (`Effect`), mirroring the
  calls the source makes into them.
* Module-level mutable variables (`carryState`, `carryStateData`,
  `prevDot`, `lastIntersectedObj`, `uiNeedsUpdate`,
  `arrowHelper.visible`, `gridMesh.visible`) form the state `SysState`;
  each tick of `carrySystem` is a function `World → TickInput → SysState →
  SysState × List Effect`.
-/

namespace CarryModel

/-- Exact rational 3-vector standing in for a THREE.Vector3. -/
structure Vec3 where
  x : ℚ
  y : ℚ
  z : ℚ
deriving DecidableEq

/-- `Vector3.dot`. -/
def Vec3.dot (a b : Vec3) : ℚ := a.x * b.x + a.y * b.y + a.z * b.z

/-- `Vector3.addScalar`. -/
def Vec3.addScalar (a : Vec3) (s : ℚ) : Vec3 := ⟨a.x + s, a.y + s, a.z + s⟩

/-- Componentwise `Vector3.max`. -/
def Vec3.maxV (a b : Vec3) : Vec3 := ⟨max a.x b.x, max a.y b.y, max a.z b.z⟩

/-- Componentwise order used to say a scale is at least the minimum scale. -/
def Vec3.le (a b : Vec3) : Prop := a.x ≤ b.x ∧ a.y ≤ b.y ∧ a.z ≤ b.z

instance (a b : Vec3) : Decidable (Vec3.le a b) :=
  inferInstanceAs (Decidable (a.x ≤ b.x ∧ a.y ≤ b.y ∧ a.z ≤ b.z))

/-- The three coordinate-axis names (`AXIS_NAME_FOR_FACE` values "x"/"y"/"z"). -/
inductive Axis | x | y | z
deriving DecidableEq

/-- Component of a vector selected by axis name (`vec[axisName]` in the source). -/
def Vec3.comp (v : Vec3) : Axis → ℚ
  | Axis.x => v.x
  | Axis.y => v.y
  | Axis.z => v.z

def ZERO : Vec3 := ⟨0, 0, 0⟩
def X_AXIS : Vec3 := ⟨1, 0, 0⟩
def Y_AXIS : Vec3 := ⟨0, 1, 0⟩
def Z_AXIS : Vec3 := ⟨0, 0, 1⟩

/-- `enum CarryState { NONE, MENU, CARRYING, SNAPPING }`. -/
inductive CarryState
  | NONE
  | MENU
  | CARRYING
  | SNAPPING
deriving DecidableEq

/-!
`enum SnapFace { AUTO = -1, LEFT, FRONT, RIGHT, TOP, BOTTOM, BACK }` —
kept as integers because the source does modular arithmetic on the values.
-/

def SnapFace.AUTO : ℤ := -1
def SnapFace.LEFT : ℤ := 0
def SnapFace.FRONT : ℤ := 1
def SnapFace.RIGHT : ℤ := 2
def SnapFace.TOP : ℤ := 3
def SnapFace.BOTTOM : ℤ := 4
def SnapFace.BACK : ℤ := 5

-- Config constants from the source.
def CARRY_HEIGHT : ℚ := 0.6
def CARRY_DISTANCE : ℚ := 0.5
/-- start objects slightly off the surface to avoid any z-fighting -/
def NUDGE_START_OFFSET : ℚ := 0.001

-- `FLOOR_SNAP_ANGLE = MathUtils.degToRad(45)`, i.e. π/4 radians; it enters the
-- code only through `COS_FLOOR_SNAP_ANGLE = Math.cos(FLOOR_SNAP_ANGLE)`, see
-- `absDotGeCosFloorSnapAngle` below.
def DEFAULT_FLOOR_FACE : ℤ := SnapFace.BOTTOM
def DEFAULT_WALL_FACE : ℤ := SnapFace.BACK
def DEFAULT_CEIL_FACE : ℤ := SnapFace.TOP

def ROTATIONS_PER_SECOND : ℚ := 4
/-- `(Math.PI * 2) / ROTATIONS_PER_SECOND / 1000`, in units of π radians per
millisecond (the factor π is divided out by the angle convention). -/
def ROTATION_SPEED : ℚ := 2 / ROTATIONS_PER_SECOND / 1000

def MIN_SCALE : Vec3 := ⟨0.01, 0.01, 0.01⟩
def SCALE_SPEED : ℚ := 0.1
def NUDGE_SPEED : ℚ := 0.1

/-- `AXIS_NAME_FOR_FACE` lookup table. -/
def AXIS_NAME_FOR_FACE (face : ℤ) : Axis :=
  if face = SnapFace.AUTO then Axis.y
  else if face = SnapFace.BOTTOM then Axis.y
  else if face = SnapFace.TOP then Axis.y
  else if face = SnapFace.BACK then Axis.z
  else if face = SnapFace.FRONT then Axis.z
  else Axis.x

/-- `ROT_AXIS_FOR_FACE` lookup table (feeds the quaternion math, which is
recorded only through the emitted placement effect). -/
def ROT_AXIS_FOR_FACE (face : ℤ) : Vec3 :=
  if face = SnapFace.AUTO then Y_AXIS
  else if face = SnapFace.BOTTOM then Y_AXIS
  else if face = SnapFace.TOP then Y_AXIS
  else if face = SnapFace.BACK then Z_AXIS
  else if face = SnapFace.FRONT then Z_AXIS
  else X_AXIS

/-- `interface CarryStateData`. -/
structure CarryStateData where
  activeObject : ℕ
  rotationOffset : ℚ
  nudgeOffset : ℚ
  snapFace : ℤ
  applyGravity : Bool
  menuPosX : ℚ
  menuPosY : ℚ
  center : Vec3
  size : Vec3
deriving DecidableEq

/-- The module-level mutable variables of the source file. -/
structure SysState where
  carryState : CarryState
  data : CarryStateData
  prevDot : ℚ
  lastIntersectedObj : Option ℕ
  uiNeedsUpdate : Bool
  arrowVisible : Bool
  gridVisible : Bool
deriving DecidableEq

/-- Initial values of the module-level variables (`ArrowHelper` objects are
visible by default; `gridMesh.visible` is set to `false` at module load). -/
def initialState : SysState where
  carryState := CarryState.NONE
  data := {
    activeObject := 0
    rotationOffset := 0
    nudgeOffset := NUDGE_START_OFFSET
    snapFace := SnapFace.AUTO
    applyGravity := true
    menuPosX := 0
    menuPosY := 0
    center := ZERO
    size := ZERO }
  prevDot := 0
  lastIntersectedObj := none
  uiNeedsUpdate := false
  arrowVisible := true
  gridVisible := false

/-- Component markers this system reads or removes through the ECS store. -/
inductive Comp
  | Held
  | HeldHandLeft
  | HeldHandRight
  | HeldRemoteLeft
  | HeldRemoteRight
  | Owned
  | FloatyObject
  | Carryable
deriving DecidableEq

/-- `"dynamic"` / `"kinematic"` body type strings. -/
inductive BodyType
  | dynamic
  | kinematic
deriving DecidableEq

/-- Option object passed to `physicsSystem.updateBodyOptions`; fields that a
given call site omits are `none`. -/
structure BodyOptions where
  type : BodyType
  gravity : Vec3
  angularDamping : Option ℚ := none
  linearDamping : Option ℚ := none
  linearSleepingThreshold : Option ℚ := none
  angularSleepingThreshold : Option ℚ := none
  collisionFilterMask : Option ℕ := none
deriving DecidableEq

/-- Calls the system makes into its external collaborators, in program order. -/
inductive Effect
  | takeOwnership (eid : ℕ)
  | removeComponent (comp : Comp) (eid : ℕ)
  | requestPointerLock
  | exitPointerLock
  | updateBodyOptions (bodyId : ℕ) (opts : BodyOptions)
  | setFloatyGravityFlag (eid : ℕ) (applyGravity : Bool)
  | selectionAdd (eid : ℕ)
  | setEdgeColor (hex : ℕ)
  | reanchorGrid (objRef : ℕ)
  | setScale (eid : ℕ) (scale : Vec3)
  | placeObject (eid : ℕ) (snapFaceEff : ℤ) (offsetDistance : ℚ)
  | carryTransform (eid : ℕ)
  | updateUIEvent
deriving DecidableEq

/-- Read-only facts about the surrounding world for one tick: ECS queries,
physics handles, transform data.  Constants imported from files outside this
source (`COLLISION_LAYERS`, pointer-lock query-string config) are carried here
as abstract parameters. -/
structure World where
  entityExists : ℕ → Bool
  hasOwned : ℕ → Bool
  hasFloaty : ℕ → Bool
  bodyId : ℕ → ℕ
  scaleOf : ℕ → Vec3
  bboxCenter : ℕ → Vec3
  bboxSize : ℕ → Vec3
  hovered : Option ℕ
  anyHeldRemoteRight : Option ℕ
  unlockPointerOnDrop : Bool
  LAYER_DEFAULT_INTERACTABLE : ℕ
  LAYER_HANDS : ℕ
  LAYER_MEDIA_FRAMES : ℕ

/-- Result of the single view-center raycast: the world-space surface normal
(`face.normal` pushed through the normal matrix) and the identity of the
intersected object (for `lastIntersectedObj`). -/
structure Hit where
  dir : Vec3
  objRef : ℕ
deriving DecidableEq

/-- Per-tick user input and transient input-system state. -/
structure TickInput where
  delta : ℚ
  toggle_snap : Bool
  toggle_gravity : Bool
  drop : Bool
  carry : Bool
  menu : Bool
  rotate_ccw : Bool
  rotate_cw : Bool
  change_snap_face : Bool
  snap_nudge : Option ℚ
  snap_scale : Option ℚ
  hit : Option Hit
  mousePos : ℚ × ℚ
  exitedPointerlock : Bool

/-- `showObjectMenu`. -/
def showObjectMenu (eid : ℕ) (mx my : ℚ) (s : SysState) : SysState :=
  { s with
    carryState := CarryState.MENU
    data.activeObject := eid
    data.menuPosX := mx
    data.menuPosY := my
    uiNeedsUpdate := true }

/-- `clearObjectMenu`. -/
def clearObjectMenu (s : SysState) : SysState :=
  { s with
    carryState := CarryState.NONE
    data.activeObject := 0
    uiNeedsUpdate := true }

/-- Body options passed by `carryObject` (only `type` and `gravity` are set). -/
def carryBodyOptions : BodyOptions where
  type := BodyType.kinematic
  gravity := ZERO

/-- `carryObject`.  Note the source removes `HeldRemoteRight` twice (lines 129
and 131) and never removes `HeldHandRight`. -/
def carryObject (w : World) (eid : ℕ) (s : SysState) : SysState × List Effect :=
  let s := clearObjectMenu s
  let s := { s with
    carryState := CarryState.CARRYING
    data.activeObject := eid
    data.applyGravity := true }
  let effs : List Effect := [
    Effect.takeOwnership s.data.activeObject,
    Effect.removeComponent Comp.HeldRemoteRight eid,
    Effect.removeComponent Comp.HeldRemoteLeft eid,
    Effect.removeComponent Comp.HeldRemoteRight eid,
    Effect.removeComponent Comp.HeldHandLeft eid,
    Effect.removeComponent Comp.Held eid,
    Effect.requestPointerLock,
    Effect.updateBodyOptions (w.bodyId eid) carryBodyOptions]
  let s := { s with
    data.center := w.bboxCenter eid
    data.size := w.bboxSize eid
    uiNeedsUpdate := true }
  (s, effs)

/-- Body options passed by `dropObject` when `applyGravity` is true. -/
def dropDynamicOptions (w : World) : BodyOptions where
  type := BodyType.dynamic
  gravity := ⟨0, -9.8, 0⟩
  angularDamping := some 0.01
  linearDamping := some 0.01
  linearSleepingThreshold := some 1.6
  angularSleepingThreshold := some 2.5
  collisionFilterMask := some w.LAYER_DEFAULT_INTERACTABLE

/-- Body options passed by `dropObject` when `applyGravity` is false. -/
def dropKinematicOptions (w : World) : BodyOptions where
  type := BodyType.kinematic
  gravity := ZERO
  angularDamping := some 0.89
  linearDamping := some 0.95
  linearSleepingThreshold := some 0.1
  angularSleepingThreshold := some 0.1
  collisionFilterMask := some (w.LAYER_HANDS ||| w.LAYER_MEDIA_FRAMES)

/-- `dropObject`. -/
def dropObject (w : World) (applyGravity : Bool) (s : SysState) :
    SysState × List Effect :=
  let unlockEffs : List Effect :=
    if w.unlockPointerOnDrop then [Effect.exitPointerLock] else []
  let bodyId := w.bodyId s.data.activeObject
  let bodyEffs : List Effect :=
    if applyGravity then [Effect.updateBodyOptions bodyId (dropDynamicOptions w)]
    else [Effect.updateBodyOptions bodyId (dropKinematicOptions w)]
  let floatyEffs : List Effect :=
    if w.hasFloaty s.data.activeObject then
      [Effect.setFloatyGravityFlag s.data.activeObject applyGravity]
    else []
  let s := { s with
    carryState := CarryState.NONE
    data.activeObject := 0
    arrowVisible := false
    gridVisible := false
    uiNeedsUpdate := true }
  (s, unlockEffs ++ bodyEffs ++ floatyEffs)

/-- `isCarryingObject`. -/
def isCarryingObject (s : SysState) : Bool := s.carryState = CarryState.CARRYING

/-- `isSnappingObject`. -/
def isSnappingObject (s : SysState) : Bool := s.carryState = CarryState.SNAPPING

/-- `(carryStateData.snapFace + 1) % 6`.  JavaScript `%` is the truncated
remainder, `Int.tmod`; on the reachable values (`snapFace ≥ -1`) it agrees
with mathematical mod. -/
def changeSnapFace (snapFace : ℤ) : ℤ := (snapFace + 1).tmod 6

/-- `Math.abs(dot) >= COS_FLOOR_SNAP_ANGLE` where `COS_FLOOR_SNAP_ANGLE =
Math.cos(degToRad(45)) = √2/2`.  For rational `dot` this comparison against
the irrational threshold is expressed by the exactly equivalent rational
inequality `1/2 ≤ dot²` (both sides of the original comparison are
nonnegative, so squaring is an order isomorphism); the equivalence with the
literal `cos (π/4) ≤ |dot|` is proved in `absDot_ge_cos_iff` below. -/
def absDotGeCosFloorSnapAngle (dot : ℚ) : Bool := 1/2 ≤ dot ^ 2

/-- Effective snap face: the `snapFace` selection chain of `handleSnapping`
(source lines 386–393). -/
def effectiveSnapFace (snapFace : ℤ) (dot : ℚ) : ℤ :=
  if snapFace ≠ -1 then snapFace
  else if absDotGeCosFloorSnapAngle dot then
    if 0 < dot then DEFAULT_FLOOR_FACE else DEFAULT_CEIL_FACE
  else DEFAULT_WALL_FACE

/-- The asymmetric standoff-distance formula of `handleSnapping`
(source lines 399–402). -/
def offsetDistance (sizeOnAxis scaleOnAxis nudgeOffset : ℚ) : ℚ :=
  if nudgeOffset < 0 then (sizeOnAxis / 2 + nudgeOffset) * scaleOnAxis
  else sizeOnAxis / 2 * scaleOnAxis + nudgeOffset

/-- Rotation accumulation of `handleSnapping` (source lines 317–321):
`rotate_ccw` is tested first, so it wins when both axes are active.
Values are in units of π radians. -/
def rotationAfterInput (inp : TickInput) (rotationOffset : ℚ) : ℚ :=
  if inp.rotate_ccw then rotationOffset - ROTATION_SPEED * inp.delta
  else if inp.rotate_cw then rotationOffset + ROTATION_SPEED * inp.delta
  else rotationOffset

/-- Nudge accumulation of `handleSnapping` (source lines 335–338). -/
def nudgeAfterInput (inp : TickInput) (nudgeOffset : ℚ) : ℚ :=
  match inp.snap_nudge with
  | some nudgeDelta => nudgeOffset + nudgeDelta * inp.delta * NUDGE_SPEED
  | none => nudgeOffset

/-- Scale accumulation of `handleSnapping` (source lines 340–343):
`obj.scale.addScalar(scaleDelta * world.time.delta * SCALE_SPEED)`. -/
def scaleAfterInput (w : World) (inp : TickInput) (eid : ℕ) : Vec3 :=
  match inp.snap_scale with
  | some scaleDelta => (w.scaleOf eid).addScalar (scaleDelta * inp.delta * SCALE_SPEED)
  | none => w.scaleOf eid

/-- Snap-discontinuity test of `handleSnapping` (source line 365):
`Math.abs(dot - prevDot) > 0.2`. -/
def snapDiscontinuity (dot prevDot : ℚ) : Bool := |dot - prevDot| > 0.2

/-- snapFace after the `change_snap_face` handling (source lines 322–325). -/
def snapFaceAfterInput (inp : TickInput) (snapFace : ℤ) : ℤ :=
  if inp.change_snap_face then changeSnapFace snapFace else snapFace

/-- `handleSnapping`.  The raycast itself is external: its outcome arrives as
`inp.hit`.  The quaternion look-at/orientation math and the arrow/grid
uniform updates mutate only renderer objects and are summarised by the
emitted `placeObject`/`setScale`/`reanchorGrid` effects together with the
tracked `arrowVisible` flag. -/
def handleSnapping (w : World) (inp : TickInput) (s : SysState) :
    SysState × List Effect :=
  if inp.toggle_snap then
    ({ s with carryState := CarryState.CARRYING, gridVisible := false,
              uiNeedsUpdate := true }, [])
  else if inp.drop || inp.exitedPointerlock then
    dropObject w false s
  else
    let s :=
      { s with data.rotationOffset := rotationAfterInput inp s.data.rotationOffset }
    let s :=
      if inp.change_snap_face then
        { s with data.snapFace := changeSnapFace s.data.snapFace,
                 uiNeedsUpdate := true }
      else s
    match inp.hit with
    | none => (s, [])
    | some hit =>
      let s :=
        { s with data.nudgeOffset := nudgeAfterInput inp s.data.nudgeOffset }
      let scale1 := scaleAfterInput w inp s.data.activeObject
      let dir := hit.dir
      let reanchorEffs : List Effect :=
        if s.lastIntersectedObj ≠ some hit.objRef then
          [Effect.reanchorGrid hit.objRef]
        else []
      let s :=
        if s.lastIntersectedObj ≠ some hit.objRef then
          { s with lastIntersectedObj := some hit.objRef }
        else s
      let dot := Vec3.dot dir Y_AXIS
      let s :=
        if snapDiscontinuity dot s.prevDot then
          { s with data.rotationOffset := 0,
                   data.nudgeOffset := NUDGE_START_OFFSET }
        else s
      let s := { s with prevDot := dot }
      let s := { s with arrowVisible := s.data.nudgeOffset ≠ 0 }
      let clampedScale := scale1.maxV MIN_SCALE
      let snapFace := effectiveSnapFace s.data.snapFace dot
      let sizeOnAxis := s.data.size.comp (AXIS_NAME_FOR_FACE snapFace)
      let scaleOnAxis := clampedScale.comp (AXIS_NAME_FOR_FACE snapFace)
      let offDist := offsetDistance sizeOnAxis scaleOnAxis s.data.nudgeOffset
      (s, reanchorEffs ++
        [Effect.setScale s.data.activeObject clampedScale,
         Effect.placeObject s.data.activeObject snapFace offDist])

/-- The watchdog's forced reset (source lines 431–435). -/
def watchdogReset (s : SysState) : SysState :=
  { s with
    carryState := CarryState.NONE
    data.activeObject := 0
    arrowVisible := false
    gridVisible := false
    uiNeedsUpdate := true }

/-- The `CarryState.CARRYING` branch of `carrySystem` (source lines 438–470).
The carried transform is a fixed offset from the viewer computed from
scene-graph poses; it touches no state the claims mention and is recorded as
a `carryTransform` effect. -/
def carryingTick (w : World) (inp : TickInput) (s : SysState) :
    SysState × List Effect :=
  let effs : List Effect := [Effect.carryTransform s.data.activeObject]
  let s :=
    if inp.toggle_gravity then
      { s with data.applyGravity := !s.data.applyGravity, uiNeedsUpdate := true }
    else s
  let (s, dropEffs) :=
    if inp.drop || inp.exitedPointerlock then
      dropObject w s.data.applyGravity s
    else (s, ([] : List Effect))
  let s :=
    if inp.toggle_snap then
      { s with
        carryState := CarryState.SNAPPING
        data.rotationOffset := 0
        data.nudgeOffset := NUDGE_START_OFFSET
        data.snapFace := -1
        gridVisible := true
        lastIntersectedObj := none
        uiNeedsUpdate := true }
    else s
  (s, effs ++ dropEffs)

/-- The `CarryState.SNAPPING` branch of `carrySystem` (source lines 471–474). -/
def snappingTick (w : World) (inp : TickInput) (s : SysState) :
    SysState × List Effect :=
  let colorEffs : List Effect := [Effect.setEdgeColor 0xffffff]
  let selEffs : List Effect :=
    if s.data.nudgeOffset < 0 then [Effect.selectionAdd s.data.activeObject]
    else []
  let (s, snapEffs) := handleSnapping w inp s
  (s, colorEffs ++ selEffs ++ snapEffs)

/-- The `NONE`/`MENU` branch of `carrySystem` (source lines 475–502). -/
def idleTick (w : World) (inp : TickInput) (s : SysState) :
    SysState × List Effect :=
  let colorEffs : List Effect := [Effect.setEdgeColor 0x08c7f1]
  let hovered := w.hovered
  let heldRightRemote := w.anyHeldRemoteRight
  match heldRightRemote with
  | some hrr =>
    if inp.toggle_snap then
      let (s, carryEffs) := carryObject w hrr s
      let s := { s with
        carryState := CarryState.SNAPPING
        data.rotationOffset := 0
        data.nudgeOffset := NUDGE_START_OFFSET
        data.snapFace := -1
        gridVisible := true
        lastIntersectedObj := none
        uiNeedsUpdate := true }
      (s, colorEffs ++ carryEffs)
    else if s.data.activeObject ≠ 0 then
      (s, colorEffs ++ [Effect.selectionAdd s.data.activeObject])
    else
      match hovered with
      | some hov =>
        let selEffs : List Effect := [Effect.selectionAdd hov]
        if inp.carry then
          let (s, carryEffs) := carryObject w hov s
          (s, colorEffs ++ selEffs ++ carryEffs)
        else if inp.menu then
          let s := showObjectMenu hov inp.mousePos.1 inp.mousePos.2 s
          (s, colorEffs ++ selEffs ++ [Effect.exitPointerLock])
        else (s, colorEffs ++ selEffs)
      | none => (s, colorEffs)
  | none =>
    if s.data.activeObject ≠ 0 then
      (s, colorEffs ++ [Effect.selectionAdd s.data.activeObject])
    else
      match hovered with
      | some hov =>
        let selEffs : List Effect := [Effect.selectionAdd hov]
        if inp.carry then
          let (s, carryEffs) := carryObject w hov s
          (s, colorEffs ++ selEffs ++ carryEffs)
        else if inp.menu then
          let s := showObjectMenu hov inp.mousePos.1 inp.mousePos.2 s
          (s, colorEffs ++ selEffs ++ [Effect.exitPointerLock])
        else (s, colorEffs ++ selEffs)
      | none => (s, colorEffs)

/-- The watchdog condition of `carrySystem` (source lines 425–430):
`entityWasRemoved || ((CARRYING || SNAPPING) && lostOwnership)`. -/
def watchdogFires (w : World) (s : SysState) : Bool :=
  !w.entityExists s.data.activeObject ||
    ((s.carryState == CarryState.CARRYING || s.carryState == CarryState.SNAPPING) &&
      !w.hasOwned s.data.activeObject)

/-- `carrySystem`: one tick.  The highlight selection is cleared at tick start,
so the `selectionAdd` effects of the returned list are exactly this tick's
selection contents. -/
def carrySystem (w : World) (inp : TickInput) (s : SysState) :
    SysState × List Effect :=
  let s := if watchdogFires w s then watchdogReset s else s
  let (s, effs) :=
    if s.carryState = CarryState.CARRYING then carryingTick w inp s
    else if s.carryState = CarryState.SNAPPING then snappingTick w inp s
    else idleTick w inp s
  let uiEffs : List Effect := if s.uiNeedsUpdate then [Effect.updateUIEvent] else []
  ({ s with uiNeedsUpdate := false }, effs ++ uiEffs)

/-- States reachable from module load through ticks and the exported entry
points (`carryObject` and `clearObjectMenu` are public API). -/
inductive Reachable : SysState → Prop
  | init : Reachable initialState
  | tick (w : World) (inp : TickInput) {s : SysState} :
      Reachable s → Reachable (carrySystem w inp s).1
  | extCarry (w : World) (eid : ℕ) {s : SysState} :
      Reachable s → Reachable (carryObject w eid s).1
  | extClearMenu {s : SysState} :
      Reachable s → Reachable (clearObjectMenu s)

/-- The state invariant maintained by every operation of the system: when the
machine is in `NONE` the active object is the none sentinel 0, and `snapFace`
always lies in `{-1, 0, 1, 2, 3, 4, 5}`. -/
def StateInv (s : SysState) : Prop :=
  (s.carryState = CarryState.NONE → s.data.activeObject = 0) ∧
  -1 ≤ s.data.snapFace ∧ s.data.snapFace ≤ 5

/-- First `placeObject` effect in a tick's effect list, if any. -/
def placedFace (effs : List Effect) : Option ℤ :=
  effs.findSome? fun e =>
    match e with
    | Effect.placeObject _ f _ => some f
    | _ => none

/-- Offset distance of the first `placeObject` effect, if any. -/
def placedOffset (effs : List Effect) : Option ℚ :=
  effs.findSome? fun e =>
    match e with
    | Effect.placeObject _ _ d => some d
    | _ => none

/-- Component-store contents after a tick's `removeComponent` calls are
applied to an initial presence function. -/
def applyRemovals (present : Comp → ℕ → Bool) (effs : List Effect) :
    Comp → ℕ → Bool :=
  effs.foldl
    (fun acc e =>
      match e with
      | Effect.removeComponent c eid =>
        fun c2 e2 => if c2 = c ∧ e2 = eid then false else acc c2 e2
      | _ => acc)
    present

/-- Selects the `updateBodyOptions` calls from an effect list. -/
def isBodyUpdate : Effect → Bool
  | Effect.updateBodyOptions _ _ => true
  | _ => false

/-!
Concrete fixtures used by witnesses and counterexamples: a world where
entities 7 and 9 exist and are owned, every object has unit scale and a
(1,1,1) local bounding box, and an idle input record.
-/

def wBase : World where
  entityExists := fun e => decide (e = 7) || decide (e = 9)
  hasOwned := fun e => decide (e = 7) || decide (e = 9)
  hasFloaty := fun _ => false
  bodyId := fun e => 100 + e
  scaleOf := fun _ => ⟨1, 1, 1⟩
  bboxCenter := fun _ => ZERO
  bboxSize := fun _ => ⟨1, 1, 1⟩
  hovered := none
  anyHeldRemoteRight := none
  unlockPointerOnDrop := true
  LAYER_DEFAULT_INTERACTABLE := 15
  LAYER_HANDS := 16
  LAYER_MEDIA_FRAMES := 32

/-- Same world with entity 9 currently held by the remote-right interactor. -/
def wHeld9 : World := { wBase with anyHeldRemoteRight := some 9 }

def inpIdle : TickInput where
  delta := 16
  toggle_snap := false
  toggle_gravity := false
  drop := false
  carry := false
  menu := false
  rotate_ccw := false
  rotate_cw := false
  change_snap_face := false
  snap_nudge := none
  snap_scale := none
  hit := none
  mousePos := (0, 0)
  exitedPointerlock := false

/-- Raycast hit on a horizontal floor-like surface: world normal straight up. -/
def hitUp : Hit := ⟨⟨0, 1, 0⟩, 42⟩

/-- Raycast hit on a wall-like surface: world normal along +z. -/
def hitWall : Hit := ⟨⟨0, 0, 1⟩, 42⟩

/-- Snapping on entity 7, embedded 0.3 into the surface, face AUTO,
previous tick's normal-vs-up dot = 1. -/
def sSnapEmbedded : SysState :=
  { initialState with
    carryState := CarryState.SNAPPING
    data := { initialState.data with
      activeObject := 7
      nudgeOffset := -0.3
      snapFace := SnapFace.AUTO
      size := ⟨1, 1, 1⟩ }
    prevDot := 1 }

/-- Snapping on entity 7 with all offsets at their snap-entry defaults. -/
def sSnapFresh : SysState :=
  { sSnapEmbedded with
    data := { sSnapEmbedded.data with nudgeOffset := NUDGE_START_OFFSET } }

/-- Carrying entity 5 — an entity that does not exist in `wBase`, so the
watchdog fires on the next tick. -/
def sCarryRemoved : SysState :=
  { initialState with
    carryState := CarryState.CARRYING
    data := { initialState.data with activeObject := 5 } }

/-- An otherwise idle tick whose raycast hits the horizontal-up surface. -/
def inpHitUp : TickInput := { inpIdle with hit := some hitUp }

/-!  ## Theorems  -/

/-- The rational face-selection guard is exactly the source comparison
`Math.abs(dot) >= Math.cos(π/4)`: for rational `dot`, `1/2 ≤ dot²` holds iff
`cos (π/4) ≤ |dot|` over the reals. -/
theorem absDotGeCos_iff_cos_le (q : ℚ) :
    absDotGeCosFloorSnapAngle q = true ↔ Real.cos (Real.pi / 4) ≤ |(q : ℝ)| := by
  unfold absDotGeCosFloorSnapAngle
  rw [decide_eq_true_iff, Real.cos_pi_div_four]
  have hs2 : Real.sqrt 2 ^ 2 = 2 := Real.sq_sqrt (by norm_num)
  have hs0 : (0 : ℝ) ≤ Real.sqrt 2 := Real.sqrt_nonneg 2
  have habs : |(q : ℝ)| ^ 2 = (q : ℝ) ^ 2 := sq_abs _
  have habs0 : (0 : ℝ) ≤ |(q : ℝ)| := abs_nonneg _
  constructor
  · intro h
    have hc : ((1 / 2 : ℚ) : ℝ) ≤ ((q ^ 2 : ℚ) : ℝ) := Rat.cast_le.mpr h
    push_cast at hc
    nlinarith
  · intro h
    have h' : (1 / 2 : ℝ) ≤ (q : ℝ) ^ 2 := by nlinarith
    have hc : ((1 / 2 : ℚ) : ℝ) ≤ ((q ^ 2 : ℚ) : ℝ) := by push_cast; linarith
    exact Rat.cast_le.mp hc

/-- The model's rational rotation rate, read back in real radians per
millisecond, is the source constant `(Math.PI * 2) / ROTATIONS_PER_SECOND /
1000` (the model stores angles in units of π). -/
theorem rotation_speed_in_radians :
    (ROTATION_SPEED : ℝ) * Real.pi =
      2 * Real.pi / (ROTATIONS_PER_SECOND : ℝ) / 1000 := by
  have h : (ROTATION_SPEED : ℚ) = 1 / 2000 := by
    unfold ROTATION_SPEED ROTATIONS_PER_SECOND; norm_num
  have h2 : (ROTATIONS_PER_SECOND : ℚ) = 4 := by unfold ROTATIONS_PER_SECOND; norm_num
  rw [h, h2]
  push_cast
  ring

/-- Claim C4 counterexample: starting from `AUTO = -1`, six applications of
the `change_snap_face` step land on `BACK = 5`, not back on `AUTO`. -/
theorem changeSnapFace_six_from_auto :
    changeSnapFace (changeSnapFace (changeSnapFace (changeSnapFace
      (changeSnapFace (changeSnapFace SnapFace.AUTO))))) = SnapFace.BACK ∧
    SnapFace.BACK ≠ SnapFace.AUTO := by
  constructor
  · with_unfolding_all decide
  · with_unfolding_all decide

/-- Claim C4 (amended): for every concrete face value in `{0,…,5}`, applying
the `change_snap_face` step six times returns `snapFace` to its original
value; from `AUTO = -1` six presses yield `BACK = 5` instead, and cycling
never re-enters `AUTO`. -/
theorem changeSnapFace_six_cycle (f : ℤ) (h0 : 0 ≤ f) (h5 : f ≤ 5) :
    changeSnapFace (changeSnapFace (changeSnapFace (changeSnapFace
      (changeSnapFace (changeSnapFace f))))) = f := by
  interval_cases f <;> with_unfolding_all decide

/-- Witness for `changeSnapFace_six_cycle` at `f = 0`. -/
theorem changeSnapFace_six_cycle_witness :
    (0 : ℤ) ≤ 0 ∧ (0 : ℤ) ≤ 5 ∧
    changeSnapFace (changeSnapFace (changeSnapFace (changeSnapFace
      (changeSnapFace (changeSnapFace (0 : ℤ)))))) = 0 :=
  ⟨by decide, by decide, changeSnapFace_six_cycle 0 (by decide) (by decide)⟩

/-- Claim C3 counterexample: with rotate-cw held for a 1000 ms snapping tick
(`inpIdle` with `rotate_cw := true, delta := 1000`, starting offset 0, no
raycast hit), the code accumulates a rotation offset of 1/2 (units of π),
i.e. π/2 radians — one eighth of a turn — whereas the claimed rate of
4 full rotations per second, (4·2π/1000)·delta radians, would give 8π. -/
theorem rotation_rate_counterexample :
    (handleSnapping wBase { inpIdle with rotate_cw := true, delta := 1000 }
        sSnapFresh).1.data.rotationOffset = 1 / 2 ∧
    (1 / 2 : ℝ) * Real.pi ≠ 4 * (2 * Real.pi) / 1000 * 1000 := by
  refine ⟨by with_unfolding_all decide, fun h => ?_⟩
  have hpi := Real.pi_pos
  nlinarith

/-- Claim C3 (amended): while snapping, on a tick that is not ended by
toggle-snap/drop/pointer-lock loss and whose raycast outcome does not trip
the snap-discontinuity reset, holding rotate-cw (with rotate-ccw inactive,
which takes precedence) increases `rotationOffset` by `ROTATION_SPEED *
delta`, i.e. by (2π/4/1000)·delta radians — a quarter rotation per second,
not 4 rotations per second — and symmetrically holding rotate-ccw decreases
it by the same amount. -/
theorem rotation_rate (w : World) (inp : TickInput) (s : SysState)
    (ht : inp.toggle_snap = false) (hd : inp.drop = false)
    (hp : inp.exitedPointerlock = false)
    (hdisc : ∀ h : Hit, inp.hit = some h →
      snapDiscontinuity (Vec3.dot h.dir Y_AXIS) s.prevDot = false) :
    (inp.rotate_ccw = false → inp.rotate_cw = true →
      (handleSnapping w inp s).1.data.rotationOffset =
        s.data.rotationOffset + ROTATION_SPEED * inp.delta) ∧
    (inp.rotate_ccw = true →
      (handleSnapping w inp s).1.data.rotationOffset =
        s.data.rotationOffset - ROTATION_SPEED * inp.delta) := by
  have hrot :
      (handleSnapping w inp s).1.data.rotationOffset =
        rotationAfterInput inp s.data.rotationOffset := by
    unfold handleSnapping
    rw [if_neg (by simp [ht]), if_neg (by simp [hd, hp])]
    cases hh : inp.hit with
    | none =>
      simp only [hh]
      split <;> rfl
    | some h =>
      simp only [hh]
      split <;> split <;> split <;> first | rfl | simp_all
  refine ⟨fun hccw hcw => ?_, fun hccw => ?_⟩
  · rw [hrot]; unfold rotationAfterInput; simp [hccw, hcw]
  · rw [hrot]; unfold rotationAfterInput; simp [hccw]

/-- Witness for `rotation_rate`: a concrete 1000 ms cw tick with no hit. -/
theorem rotation_rate_witness :
    (handleSnapping wBase { inpIdle with rotate_cw := true, delta := 1000 }
        sSnapFresh).1.data.rotationOffset =
      sSnapFresh.data.rotationOffset + ROTATION_SPEED * 1000 :=
  (rotation_rate wBase { inpIdle with rotate_cw := true, delta := 1000 }
    sSnapFresh rfl rfl rfl (fun h hh => by simp [inpIdle] at hh)).1 rfl rfl

/-- Claim C8: on a snapping tick with a raycast hit, if the surface normal's
dot with world-up differs from the previous tick's dot by more than 0.2 in
absolute value, both `rotationOffset` (reset to 0) and `nudgeOffset` (reset
to the start epsilon) are reset on that same tick. -/
theorem snap_discontinuity_resets (w : World) (inp : TickInput) (s : SysState)
    (h : Hit) (ht : inp.toggle_snap = false) (hd : inp.drop = false)
    (hp : inp.exitedPointerlock = false) (hh : inp.hit = some h)
    (hdot : |Vec3.dot h.dir Y_AXIS - s.prevDot| > 0.2) :
    (handleSnapping w inp s).1.data.rotationOffset = 0 ∧
    (handleSnapping w inp s).1.data.nudgeOffset = NUDGE_START_OFFSET := by
  have hdisc : snapDiscontinuity (Vec3.dot h.dir Y_AXIS) s.prevDot = true := by
    unfold snapDiscontinuity
    exact decide_eq_true hdot
  unfold handleSnapping
  rw [if_neg (by simp [ht]), if_neg (by simp [hd, hp])]
  simp only [hh]
  split <;> split <;> (dsimp only; simp [hdisc])

/-- Witness for `snap_discontinuity_resets`: snapping against a floor on the
previous tick (dot 1) and hitting a wall (dot 0) on this one. -/
theorem snap_discontinuity_resets_witness :
    |Vec3.dot hitWall.dir Y_AXIS - sSnapEmbedded.prevDot| > 0.2 ∧
    (handleSnapping wBase { inpIdle with hit := some hitWall }
        sSnapEmbedded).1.data.rotationOffset = 0 ∧
    (handleSnapping wBase { inpIdle with hit := some hitWall }
        sSnapEmbedded).1.data.nudgeOffset = NUDGE_START_OFFSET :=
  ⟨by with_unfolding_all decide,
   snap_discontinuity_resets wBase { inpIdle with hit := some hitWall }
     sSnapEmbedded hitWall rfl rfl rfl rfl (by with_unfolding_all decide)⟩

/-- On a snapping tick with a raycast hit (and no early exit), the tick emits
exactly one placement: its face is `effectiveSnapFace` of the post-input
snapFace and the normal-vs-up dot, and its standoff distance is the
`offsetDistance` formula applied to the bounding-box extent and clamped scale
on that face's measurement axis and to the tick's final nudge offset. -/
theorem handleSnapping_placement (w : World) (inp : TickInput) (s : SysState)
    (h : Hit) (ht : inp.toggle_snap = false) (hd : inp.drop = false)
    (hp : inp.exitedPointerlock = false) (hh : inp.hit = some h) :
    placedFace (handleSnapping w inp s).2 =
      some (effectiveSnapFace (snapFaceAfterInput inp s.data.snapFace)
        (Vec3.dot h.dir Y_AXIS)) ∧
    placedOffset (handleSnapping w inp s).2 =
      some (offsetDistance
        (s.data.size.comp (AXIS_NAME_FOR_FACE
          (effectiveSnapFace (snapFaceAfterInput inp s.data.snapFace)
            (Vec3.dot h.dir Y_AXIS))))
        (((scaleAfterInput w inp s.data.activeObject).maxV MIN_SCALE).comp
          (AXIS_NAME_FOR_FACE
            (effectiveSnapFace (snapFaceAfterInput inp s.data.snapFace)
              (Vec3.dot h.dir Y_AXIS))))
        (if snapDiscontinuity (Vec3.dot h.dir Y_AXIS) s.prevDot then
          NUDGE_START_OFFSET
        else nudgeAfterInput inp s.data.nudgeOffset)) := by
  unfold handleSnapping
  rw [if_neg (by simp [ht]), if_neg (by simp [hd, hp])]
  simp only [hh]
  split <;> split <;> split <;>
    (dsimp only; simp_all [placedFace, placedOffset, snapFaceAfterInput,
      List.findSome?])

/-- Claim C7: on a snapping tick with a raycast hit, the placed face is the
user-pinned face when `snapFace ≠ AUTO`; otherwise, when the normal's dot
with world-up satisfies `cos 45° ≤ |dot|`, it is the floor default for
positive dot and the ceiling default for negative dot; otherwise the wall
default. -/
theorem effective_face_selection (w : World) (inp : TickInput) (s : SysState)
    (h : Hit) (ht : inp.toggle_snap = false) (hd : inp.drop = false)
    (hp : inp.exitedPointerlock = false) (hh : inp.hit = some h) :
    (snapFaceAfterInput inp s.data.snapFace ≠ SnapFace.AUTO →
      placedFace (handleSnapping w inp s).2 =
        some (snapFaceAfterInput inp s.data.snapFace)) ∧
    (snapFaceAfterInput inp s.data.snapFace = SnapFace.AUTO →
      (Real.cos (Real.pi / 4) ≤ |((Vec3.dot h.dir Y_AXIS : ℚ) : ℝ)| →
        placedFace (handleSnapping w inp s).2 =
          some (if 0 < Vec3.dot h.dir Y_AXIS then DEFAULT_FLOOR_FACE
            else DEFAULT_CEIL_FACE)) ∧
      (|((Vec3.dot h.dir Y_AXIS : ℚ) : ℝ)| < Real.cos (Real.pi / 4) →
        placedFace (handleSnapping w inp s).2 = some DEFAULT_WALL_FACE)) := by
  have hpl := (handleSnapping_placement w inp s h ht hd hp hh).1
  refine ⟨fun hne => ?_, fun heq => ⟨fun hge => ?_, fun hlt => ?_⟩⟩
  · rw [hpl]
    have hne' : snapFaceAfterInput inp s.data.snapFace ≠ -1 := by
      simpa [SnapFace.AUTO] using hne
    simp [effectiveSnapFace, hne']
  · rw [hpl]
    have heq' : snapFaceAfterInput inp s.data.snapFace = -1 := by
      simpa [SnapFace.AUTO] using heq
    have hb : absDotGeCosFloorSnapAngle (Vec3.dot h.dir Y_AXIS) = true :=
      (absDotGeCos_iff_cos_le _).mpr hge
    simp [effectiveSnapFace, heq', hb]
  · rw [hpl]
    have heq' : snapFaceAfterInput inp s.data.snapFace = -1 := by
      simpa [SnapFace.AUTO] using heq
    have hb : absDotGeCosFloorSnapAngle (Vec3.dot h.dir Y_AXIS) = false := by
      cases hcase : absDotGeCosFloorSnapAngle (Vec3.dot h.dir Y_AXIS)
      · rfl
      · exact absurd ((absDotGeCos_iff_cos_le _).mp hcase) (not_le.mpr hlt)
    simp [effectiveSnapFace, heq', hb]

set_option maxRecDepth 10000 in
/-- Witness for `effective_face_selection`: the spec scenario — a (1,1,1) box
snapped onto a purely horizontal-up surface with `snapFace = AUTO` resolves
to the floor default face, with standoff distance 0.5 + ε. -/
theorem effective_face_selection_witness :
    snapFaceAfterInput inpHitUp sSnapFresh.data.snapFace = SnapFace.AUTO ∧
    placedFace (handleSnapping wBase inpHitUp sSnapFresh).2 =
      some DEFAULT_FLOOR_FACE ∧
    placedOffset (handleSnapping wBase inpHitUp sSnapFresh).2 =
      some (1 / 2 + NUDGE_START_OFFSET) := by
  refine ⟨by with_unfolding_all decide, ?_, by with_unfolding_all decide⟩
  have hcos : Real.cos (Real.pi / 4) ≤
      |((Vec3.dot hitUp.dir Y_AXIS : ℚ) : ℝ)| := by
    have h1 : |((Vec3.dot hitUp.dir Y_AXIS : ℚ) : ℝ)| = 1 := by
      have : Vec3.dot hitUp.dir Y_AXIS = 1 := by
        with_unfolding_all decide
      rw [this]
      norm_num
    rw [h1]
    exact Real.cos_le_one _
  have hface :=
    ((effective_face_selection wBase inpHitUp sSnapFresh hitUp rfl rfl rfl
      rfl).2 (by with_unfolding_all decide)).1 hcos
  rw [hface]
  with_unfolding_all decide

theorem Vec3.maxV_eq_left {a b : Vec3} (h : Vec3.le b a) : Vec3.maxV a b = a := by
  obtain ⟨h1, h2, h3⟩ := h
  cases a
  cases b
  simp only [Vec3.maxV]
  simp_all [max_eq_left]

theorem placedOffset_append (l1 l2 : List Effect) :
    placedOffset (l1 ++ l2) = (placedOffset l1).or (placedOffset l2) := by
  unfold placedOffset
  exact List.findSome?_append

theorem placedFace_append (l1 l2 : List Effect) :
    placedFace (l1 ++ l2) = (placedFace l1).or (placedFace l2) := by
  unfold placedFace
  exact List.findSome?_append

/-- Claim C6: on a snapping tick with a raycast hit (no face-change, nudge or
scale input and no discontinuity reset, scale at or above the minimum clamp),
the emitted standoff distance is exactly the asymmetric `offsetDistance`
formula applied to the bounding-box extent and object scale on the effective
face's measurement axis and the current nudge offset; and whenever the nudge
offset is negative at the start of the tick, the active object is added to
the highlight selection that tick. -/
theorem offset_distance_formula (w : World) (inp : TickInput) (s : SysState)
    (h : Hit) (hst : s.carryState = CarryState.SNAPPING)
    (hex : w.entityExists s.data.activeObject = true)
    (how : w.hasOwned s.data.activeObject = true)
    (ht : inp.toggle_snap = false) (hd : inp.drop = false)
    (hp : inp.exitedPointerlock = false) (hh : inp.hit = some h)
    (hcf : inp.change_snap_face = false) (hnud : inp.snap_nudge = none)
    (hsc : inp.snap_scale = none)
    (hdisc : snapDiscontinuity (Vec3.dot h.dir Y_AXIS) s.prevDot = false)
    (hmin : Vec3.le MIN_SCALE (w.scaleOf s.data.activeObject)) :
    placedOffset (carrySystem w inp s).2 =
      some (offsetDistance
        (s.data.size.comp (AXIS_NAME_FOR_FACE
          (effectiveSnapFace s.data.snapFace (Vec3.dot h.dir Y_AXIS))))
        ((w.scaleOf s.data.activeObject).comp (AXIS_NAME_FOR_FACE
          (effectiveSnapFace s.data.snapFace (Vec3.dot h.dir Y_AXIS))))
        s.data.nudgeOffset) ∧
    (s.data.nudgeOffset < 0 →
      Effect.selectionAdd s.data.activeObject ∈ (carrySystem w inp s).2) := by
  have hwf : watchdogFires w s = false := by
    simp [watchdogFires, hex, how]
  have hsfa : snapFaceAfterInput inp s.data.snapFace = s.data.snapFace := by
    simp [snapFaceAfterInput, hcf]
  have hnfa : nudgeAfterInput inp s.data.nudgeOffset = s.data.nudgeOffset := by
    simp [nudgeAfterInput, hnud]
  have hsca : scaleAfterInput w inp s.data.activeObject =
      w.scaleOf s.data.activeObject := by
    simp [scaleAfterInput, hsc]
  have hplace := (handleSnapping_placement w inp s h ht hd hp hh).2
  rw [hsfa, hnfa, hsca, hdisc, Vec3.maxV_eq_left hmin] at hplace
  simp only [Bool.false_eq_true, if_false] at hplace
  have hsys : (carrySystem w inp s).2 =
      (snappingTick w inp s).2 ++
        (if (snappingTick w inp s).1.uiNeedsUpdate then [Effect.updateUIEvent]
         else []) := by
    unfold carrySystem
    rw [hwf]
    simp [hst]
  have hsnapEffs : (snappingTick w inp s).2 =
      [Effect.setEdgeColor 0xffffff] ++
        (if s.data.nudgeOffset < 0 then [Effect.selectionAdd s.data.activeObject]
         else []) ++ (handleSnapping w inp s).2 := rfl
  constructor
  · rw [hsys, placedOffset_append, hsnapEffs, placedOffset_append,
      placedOffset_append]
    have h1 : placedOffset [Effect.setEdgeColor 0xffffff] = none := rfl
    have h2 : placedOffset
        (if s.data.nudgeOffset < 0 then [Effect.selectionAdd s.data.activeObject]
         else []) = none := by
      split <;> rfl
    rw [h1, h2, hplace]
    rfl
  · intro hneg
    rw [hsys, hsnapEffs]
    simp [List.mem_append, hneg]

/-- Witness for `offset_distance_formula`: the spec scenario — the (1,1,1)
box at unit scale with `nudgeOffset = -0.3` gets standoff distance
(0.5 - 0.3) = 0.2 and is added to the highlight selection. -/
theorem offset_distance_formula_witness :
    sSnapEmbedded.data.nudgeOffset < 0 ∧
    placedOffset (carrySystem wBase inpHitUp sSnapEmbedded).2 = some 0.2 ∧
    Effect.selectionAdd sSnapEmbedded.data.activeObject ∈
      (carrySystem wBase inpHitUp sSnapEmbedded).2 := by
  have hthm := offset_distance_formula wBase inpHitUp sSnapEmbedded hitUp
    rfl (by with_unfolding_all decide) (by with_unfolding_all decide)
    rfl rfl rfl rfl rfl rfl rfl
    (by with_unfolding_all decide) (by with_unfolding_all decide)
  refine ⟨by with_unfolding_all decide, ?_, hthm.2 (by with_unfolding_all decide)⟩
  rw [hthm.1]
  with_unfolding_all decide

/-- Claim C5 (code bug): after `carryObject`, the entity no longer carries
Held, HeldHandLeft, HeldRemoteLeft or HeldRemoteRight, but it KEEPS
HeldHandRight — source line 131 removes HeldRemoteRight a second time
instead of HeldHandRight, which is never removed (nor even imported).
Evaluated at the failing input: entity 7 initially carrying every held
marker. -/
theorem heldHandRight_survives_carryObject :
    applyRemovals (fun _ _ => true) (carryObject wBase 7 initialState).2
      Comp.HeldHandRight 7 = true ∧
    applyRemovals (fun _ _ => true) (carryObject wBase 7 initialState).2
      Comp.Held 7 = false ∧
    applyRemovals (fun _ _ => true) (carryObject wBase 7 initialState).2
      Comp.HeldHandLeft 7 = false ∧
    applyRemovals (fun _ _ => true) (carryObject wBase 7 initialState).2
      Comp.HeldRemoteLeft 7 = false ∧
    applyRemovals (fun _ _ => true) (carryObject wBase 7 initialState).2
      Comp.HeldRemoteRight 7 = false ∧
    Effect.removeComponent Comp.HeldHandRight 7 ∉
      (carryObject wBase 7 initialState).2 := by
  with_unfolding_all decide

/-- Claim C10: calling `carryObject e2` while a different object `e1` is
active issues exactly one physics-body options update, and it targets `e2`'s
body (kinematic, zero gravity); `e1`'s body receives no update, and the
state record repoints `activeObject` to `e2` with `applyGravity = true`. -/
theorem carryObject_physics_targets_new_object (w : World) (e1 e2 : ℕ)
    (s : SysState) (_h1 : s.data.activeObject = e1) (_hne : e1 ≠ e2) :
    (carryObject w e2 s).2.filter isBodyUpdate =
      [Effect.updateBodyOptions (w.bodyId e2) carryBodyOptions] ∧
    (carryObject w e2 s).1.data.activeObject = e2 ∧
    (carryObject w e2 s).1.data.applyGravity = true :=
  ⟨rfl, rfl, rfl⟩

/-- Witness for `carryObject_physics_targets_new_object`: switching from
active object 5 to object 7. -/
theorem carryObject_physics_targets_new_object_witness :
    sCarryRemoved.data.activeObject = 5 ∧ (5 : ℕ) ≠ 7 ∧
    (carryObject wBase 7 sCarryRemoved).2.filter isBodyUpdate =
      [Effect.updateBodyOptions (wBase.bodyId 7) carryBodyOptions] ∧
    (carryObject wBase 7 sCarryRemoved).1.data.activeObject = 7 ∧
    (carryObject wBase 7 sCarryRemoved).1.data.applyGravity = true :=
  ⟨rfl, by decide,
   carryObject_physics_targets_new_object wBase 5 7 sCarryRemoved rfl
     (by decide)⟩

theorem changeSnapFace_bounds (f : ℤ) (h0 : -1 ≤ f) (h5 : f ≤ 5) :
    0 ≤ changeSnapFace f ∧ changeSnapFace f ≤ 5 := by
  interval_cases f <;> exact ⟨by decide, by decide⟩

theorem stateInv_initial : StateInv initialState := by
  refine ⟨fun _ => rfl, ?_, ?_⟩ <;> with_unfolding_all decide

theorem stateInv_watchdogReset (s : SysState) (h : StateInv s) :
    StateInv (watchdogReset s) :=
  ⟨fun _ => rfl, h.2.1, h.2.2⟩

theorem stateInv_clearObjectMenu (s : SysState) (h : StateInv s) :
    StateInv (clearObjectMenu s) :=
  ⟨fun _ => rfl, h.2.1, h.2.2⟩

theorem stateInv_showObjectMenu (eid : ℕ) (mx my : ℚ) (s : SysState)
    (h : StateInv s) : StateInv (showObjectMenu eid mx my s) :=
  ⟨fun hc => by simp [showObjectMenu] at hc, h.2.1, h.2.2⟩

theorem stateInv_carryObject (w : World) (eid : ℕ) (s : SysState)
    (h : StateInv s) : StateInv (carryObject w eid s).1 :=
  ⟨fun hc => by simp [carryObject, clearObjectMenu] at hc, h.2.1, h.2.2⟩

theorem stateInv_dropObject (w : World) (g : Bool) (s : SysState)
    (h : StateInv s) : StateInv (dropObject w g s).1 :=
  ⟨fun _ => rfl, h.2.1, h.2.2⟩

theorem stateInv_handleSnapping (w : World) (inp : TickInput) (s : SysState)
    (h : StateInv s) : StateInv (handleSnapping w inp s).1 := by
  obtain ⟨h1, h2, h3⟩ := h
  obtain ⟨b1, b2⟩ := changeSnapFace_bounds s.data.snapFace h2 h3
  have hb1 : (-1 : ℤ) ≤ changeSnapFace s.data.snapFace :=
    le_trans (by norm_num) b1
  unfold handleSnapping
  dsimp only
  split
  · exact ⟨fun hc => by simp at hc, h2, h3⟩
  split
  · exact ⟨fun _ => rfl, h2, h3⟩
  split <;> split <;> try (split <;> split)
  all_goals
    first
      | exact ⟨h1, h2, h3⟩
      | exact ⟨h1, hb1, b2⟩

theorem stateInv_carryingTick (w : World) (inp : TickInput) (s : SysState)
    (h : StateInv s) : StateInv (carryingTick w inp s).1 := by
  obtain ⟨h1, h2, h3⟩ := h
  have hm1 : (-1 : ℤ) ≤ -1 := le_refl _
  have hm2 : (-1 : ℤ) ≤ 5 := by norm_num
  unfold carryingTick
  dsimp only
  split <;> split <;> split
  all_goals
    first
      | exact ⟨fun hc => by simp at hc, hm1, hm2⟩
      | exact ⟨fun _ => rfl, h2, h3⟩
      | exact ⟨h1, h2, h3⟩

theorem stateInv_snappingTick (w : World) (inp : TickInput) (s : SysState)
    (h : StateInv s) : StateInv (snappingTick w inp s).1 :=
  stateInv_handleSnapping w inp s h

theorem stateInv_idleTick (w : World) (inp : TickInput) (s : SysState)
    (h : StateInv s) : StateInv (idleTick w inp s).1 := by
  obtain ⟨h1, h2, h3⟩ := h
  unfold idleTick
  dsimp only
  split
  all_goals split
  all_goals try split
  all_goals try split
  all_goals try split
  all_goals try split
  all_goals
    first
      | exact ⟨h1, h2, h3⟩
      | (refine ⟨fun hc => ?_, h2, h3⟩
         simp [showObjectMenu, carryObject, clearObjectMenu] at hc)
      | (refine ⟨fun hc => ?_, (le_refl (-1) : (-1 : ℤ) ≤ -1),
          (by norm_num : (-1 : ℤ) ≤ 5)⟩
         simp [carryObject, clearObjectMenu] at hc)

theorem stateInv_tick (w : World) (inp : TickInput) (s : SysState)
    (h : StateInv s) : StateInv (carrySystem w inp s).1 := by
  have key : ∀ u : SysState, StateInv u →
      StateInv ((if u.carryState = CarryState.CARRYING then carryingTick w inp u
        else if u.carryState = CarryState.SNAPPING then snappingTick w inp u
        else idleTick w inp u).1) := by
    intro u hu
    split
    · exact stateInv_carryingTick w inp u hu
    split
    · exact stateInv_snappingTick w inp u hu
    · exact stateInv_idleTick w inp u hu
  unfold carrySystem
  dsimp only
  split
  · have hk := key (watchdogReset s) (stateInv_watchdogReset s h)
    exact ⟨hk.1, hk.2.1, hk.2.2⟩
  · have hk := key s h
    exact ⟨hk.1, hk.2.1, hk.2.2⟩

theorem reachable_stateInv (s : SysState) (h : Reachable s) : StateInv s := by
  induction h with
  | init => exact stateInv_initial
  | tick w inp hr ih => exact stateInv_tick w inp _ ih
  | extCarry w eid hr ih => exact stateInv_carryObject w eid _ ih
  | extClearMenu hr ih => exact stateInv_clearObjectMenu _ ih

/-- Claim C2: in every reachable state, `carryState = NONE` implies
`activeObject = 0`; and each operation that sets `carryState` to `NONE` —
`clearObjectMenu`, `dropObject`, and the watchdog reset — also clears
`activeObject` in the same step. -/
theorem none_state_clears_active_object :
    (∀ s : SysState, Reachable s → s.carryState = CarryState.NONE →
      s.data.activeObject = 0) ∧
    (∀ s : SysState, (clearObjectMenu s).carryState = CarryState.NONE ∧
      (clearObjectMenu s).data.activeObject = 0) ∧
    (∀ (w : World) (g : Bool) (s : SysState),
      (dropObject w g s).1.carryState = CarryState.NONE ∧
      (dropObject w g s).1.data.activeObject = 0) ∧
    (∀ s : SysState, (watchdogReset s).carryState = CarryState.NONE ∧
      (watchdogReset s).data.activeObject = 0) :=
  ⟨fun s h => (reachable_stateInv s h).1,
   fun _ => ⟨rfl, rfl⟩, fun _ _ _ => ⟨rfl, rfl⟩, fun _ => ⟨rfl, rfl⟩⟩

/-- Witness for `none_state_clears_active_object` at the initial state. -/
theorem none_state_clears_active_object_witness :
    initialState.carryState = CarryState.NONE ∧
    initialState.data.activeObject = 0 :=
  ⟨rfl, none_state_clears_active_object.1 initialState Reachable.init rfl⟩

/-- Claim C9: in every reachable state `snapFace ∈ {-1, 0, 1, 2, 3, 4, 5}`;
after any `change_snap_face` press the value lies in `{0,…,5}`; and the press
step never returns `AUTO = -1`, so `AUTO` can only be restored by the
transitions that enter `SNAPPING` (which assign `snapFace := -1`). -/
theorem snapFace_range_invariant :
    (∀ s : SysState, Reachable s →
      -1 ≤ s.data.snapFace ∧ s.data.snapFace ≤ 5) ∧
    (∀ f : ℤ, -1 ≤ f → f ≤ 5 →
      0 ≤ changeSnapFace f ∧ changeSnapFace f ≤ 5) ∧
    (∀ f : ℤ, -1 ≤ f → f ≤ 5 → changeSnapFace f ≠ SnapFace.AUTO) :=
  ⟨fun s h => (reachable_stateInv s h).2,
   changeSnapFace_bounds,
   fun f h0 h5 => by
     have hb := (changeSnapFace_bounds f h0 h5).1
     simp only [SnapFace.AUTO]
     omega⟩

/-- Witness for `snapFace_range_invariant` at the initial state and at
`snapFace = AUTO`. -/
theorem snapFace_range_invariant_witness :
    (-1 ≤ initialState.data.snapFace ∧ initialState.data.snapFace ≤ 5) ∧
    (0 ≤ changeSnapFace (-1) ∧ changeSnapFace (-1) ≤ 5) ∧
    changeSnapFace (-1) ≠ SnapFace.AUTO :=
  ⟨snapFace_range_invariant.1 initialState Reachable.init,
   snapFace_range_invariant.2.1 (-1) (by norm_num) (by norm_num),
   snapFace_range_invariant.2.2 (-1) (by norm_num) (by norm_num)⟩

/-- If nothing can start a new manipulation this tick, the `NONE`/`MENU`
branch of the frame driver leaves the state unchanged when no object is
active. -/
theorem idleTick_inert (w : World) (inp : TickInput) (u : SysState)
    (h0 : u.data.activeObject = 0)
    (hsnap : w.anyHeldRemoteRight = none ∨ inp.toggle_snap = false)
    (hhov : ∀ hov, w.hovered = some hov →
      inp.carry = false ∧ inp.menu = false) :
    (idleTick w inp u).1 = u := by
  unfold idleTick
  dsimp only
  split
  case h_1 hov hrr heq =>
    have htog : inp.toggle_snap = false := by
      rcases hsnap with h | h
      · rw [h] at heq; cases heq
      · exact h
    rw [if_neg (by simp [htog])]
    split
    · simp_all
    · split
      case h_1 hov2 heq2 =>
        obtain ⟨hc, hm⟩ := hhov _ heq2
        rw [if_neg (by simp [hc]), if_neg (by simp [hm])]
      case h_2 => rfl
  case h_2 heq =>
    split
    · simp_all
    · split
      case h_1 hov2 heq2 =>
        obtain ⟨hc, hm⟩ := hhov _ heq2
        rw [if_neg (by simp [hc]), if_neg (by simp [hm])]
      case h_2 => rfl

theorem carrySystem_fst (w : World) (inp : TickInput) (s : SysState) :
    (carrySystem w inp s).1 =
      { (if (if watchdogFires w s = true then watchdogReset s
            else s).carryState = CarryState.CARRYING then
          carryingTick w inp
            (if watchdogFires w s = true then watchdogReset s else s)
        else if (if watchdogFires w s = true then watchdogReset s
            else s).carryState = CarryState.SNAPPING then
          snappingTick w inp
            (if watchdogFires w s = true then watchdogReset s else s)
        else idleTick w inp
            (if watchdogFires w s = true then watchdogReset s else s)).1
        with uiNeedsUpdate := false } := rfl

/-- Claim C1 (amended): whenever the watchdog condition holds — the active
entity's existence check fails, or the state is CARRYING/SNAPPING and the
Owned component is absent — the tick resets carryState to NONE, activeObject
to the none sentinel 0 and hides both visual aids, and these values persist
to the end of the tick PROVIDED the same tick does not immediately start a
new manipulation (no externally held entity with toggle-snap pressed, and no
hovered entity with carry or menu pressed — otherwise the tick ends in the
newly entered SNAPPING/CARRYING/MENU state instead). -/
theorem watchdog_forces_reset (w : World) (inp : TickInput) (s : SysState)
    (hw : watchdogFires w s = true)
    (hsnap : w.anyHeldRemoteRight = none ∨ inp.toggle_snap = false)
    (hhov : ∀ hov, w.hovered = some hov →
      inp.carry = false ∧ inp.menu = false) :
    (carrySystem w inp s).1.carryState = CarryState.NONE ∧
    (carrySystem w inp s).1.data.activeObject = 0 ∧
    (carrySystem w inp s).1.arrowVisible = false ∧
    (carrySystem w inp s).1.gridVisible = false := by
  have hidle : (idleTick w inp (watchdogReset s)).1 = watchdogReset s :=
    idleTick_inert w inp (watchdogReset s) rfl hsnap hhov
  rw [carrySystem_fst, if_pos hw, if_neg (by simp [watchdogReset]),
    if_neg (by simp [watchdogReset]), hidle]
  exact ⟨rfl, rfl, rfl, rfl⟩

/-- Witness for `watchdog_forces_reset`: carrying a removed entity with no
re-entry input. -/
theorem watchdog_forces_reset_witness :
    watchdogFires wBase sCarryRemoved = true ∧
    (carrySystem wBase inpIdle sCarryRemoved).1.carryState =
      CarryState.NONE ∧
    (carrySystem wBase inpIdle sCarryRemoved).1.data.activeObject = 0 ∧
    (carrySystem wBase inpIdle sCarryRemoved).1.arrowVisible = false ∧
    (carrySystem wBase inpIdle sCarryRemoved).1.gridVisible = false := by
  refine ⟨by with_unfolding_all decide, ?_⟩
  have h := watchdog_forces_reset wBase inpIdle sCarryRemoved
    (by with_unfolding_all decide) (Or.inl rfl)
    (fun hov hh => by simp [wBase] at hh)
  exact ⟨h.1, h.2.1, h.2.2.1, h.2.2.2⟩

/-- Claim C1 counterexample: the watchdog fires (active entity 5 was
removed), but entity 9 is externally held and toggle-snap is pressed in the
same tick, so the tick ends in `SNAPPING` with active object 9 and the grid
visible — not in the claimed NONE/0/hidden state. -/
theorem watchdog_forces_reset_counterexample :
    watchdogFires wHeld9 sCarryRemoved = true ∧
    (carrySystem wHeld9 { inpIdle with toggle_snap := true }
        sCarryRemoved).1.carryState = CarryState.SNAPPING ∧
    (carrySystem wHeld9 { inpIdle with toggle_snap := true }
        sCarryRemoved).1.data.activeObject = 9 ∧
    (carrySystem wHeld9 { inpIdle with toggle_snap := true }
        sCarryRemoved).1.gridVisible = true := by
  with_unfolding_all decide

end CarryModel
